import Mathlib

/-!
Shallow embedding of the osint-analyser content pipeline: the SQLAlchemy
data model (`models.py`), the keyed record store (`database.py`), the
collector-facing operations (`collector.py`, `telegram.py`), and the two
Celery stage tasks (`tasks/translate.py`, `tasks/analyse.py`).

Python values that flow through the dynamic attribute interface
(`getattr`/`setattr` with a string name) are modelled by `Value`; a raised
exception is modelled by `Except` with an error code from `PyError`.
Database rows live in lists (insertion order = `.first()` order), with
autoincrement primary keys modelled by explicit next-id counters.
-/

deriving instance DecidableEq for Except

namespace OsintAnalyser

/-- A dynamic Python value as it crosses the attribute interface:
`none` is Python `None`. -/
inductive Value where
  | vNat : Nat → Value
  | vStr : String → Value
  | vBool : Bool → Value
  | none : Value
deriving DecidableEq, Repr

/-- Python truthiness of a `Value` (`if not source_enabled:` etc.):
`None`, `False`, `0` and `""` are falsy. -/
def Value.truthy : Value → Bool
  | .vNat n => n ≠ 0
  | .vStr s => s ≠ ""
  | .vBool b => b
  | .none => false

/-- An `Option String` column value as seen through `getattr`. -/
def optStrVal : Option String → Value
  | Option.none => .none
  | Option.some s => .vStr s

/-- An `Option Nat` column value (datetimes are abstracted to `Nat`
timestamps) as seen through `getattr`. -/
def optNatVal : Option Nat → Value
  | Option.none => .none
  | Option.some n => .vNat n

/-- Exception classes raised by the embedded code
(`database.py`, `collector.py`, the stage tasks). -/
inductive PyError where
  | contentNotFound   -- ContentNotFoundError (also raised for missing sources)
  | attributeError    -- AttributeError from set_content_attribute
  | typeError         -- e.g. slicing None, or calling a None service class
  | valueError        -- ValueError re-raised from service.analyse
  | analysisException -- AnalysisException re-raised from service.analyse
  | providerError     -- an exception raised inside service.translate
deriving DecidableEq, Repr

/-- `SourceModel` (`models.py`). -/
structure SourceRow where
  id : Nat
  collector_id : Nat
  uid : String
  friendly_name : Option String
  user_note : Option String
  enabled : Bool
  source_metadata : Option String
deriving DecidableEq, Repr

/-- `ContentModel` (`models.py`); datetimes abstracted to `Nat`. -/
structure ContentRow where
  id : Nat
  source_id : Nat
  collection_time : Option Nat
  origin_time : Option Nat
  translated : Bool
  analysed : Bool
  original_text : Option String
  translated_text : Option String
  content_metadata : Option String
deriving DecidableEq, Repr

/-- `AnalysisRequirementModel` (`models.py`). -/
structure RequirementRow where
  id : Nat
  source_id : Nat
  llm_id : Nat
  name : String
  prompt : Option String
  enabled : Bool
deriving DecidableEq, Repr

/-- `AnalysisResultModel` (`models.py`); `analysis_time` abstracted away
(defaulted server-side, never read by the pipeline). -/
structure ResultRow where
  id : Nat
  req_id : Nat
  content_id : Nat
  output : String
deriving DecidableEq, Repr

/-- The record store: row lists in insertion order plus autoincrement
counters for the tables the pipeline appends to. -/
structure DB where
  sources : List SourceRow
  contents : List ContentRow
  requirements : List RequirementRow
  results : List ResultRow
  nextSourceId : Nat
  nextContentId : Nat
  nextResultId : Nat
deriving DecidableEq, Repr

/-- `getattr(content, attribute_name, None)` over the `ContentModel`
columns (`database.py` line 88). Unknown names give the `None` default. -/
def ContentRow.getAttr (c : ContentRow) (name : String) : Value :=
  if name = "id" then .vNat c.id
  else if name = "source_id" then .vNat c.source_id
  else if name = "collection_time" then optNatVal c.collection_time
  else if name = "origin_time" then optNatVal c.origin_time
  else if name = "translated" then .vBool c.translated
  else if name = "analysed" then .vBool c.analysed
  else if name = "original_text" then optStrVal c.original_text
  else if name = "translated_text" then optStrVal c.translated_text
  else if name = "content_metadata" then optStrVal c.content_metadata
  else .none

/-- `hasattr(content, attribute_name)` over the `ContentModel` columns
(`database.py` line 102). -/
def ContentRow.hasAttr (name : String) : Bool :=
  name = "id" || name = "source_id" || name = "collection_time" ||
  name = "origin_time" || name = "translated" || name = "analysed" ||
  name = "original_text" || name = "translated_text" ||
  name = "content_metadata"

/-- Coerce a dynamic value into a nullable text column. -/
def Value.asStrOpt : Value → Option String
  | .vStr s => Option.some s
  | _ => Option.none

/-- Coerce a dynamic value into a nullable timestamp column. -/
def Value.asNatOpt : Value → Option Nat
  | .vNat n => Option.some n
  | _ => Option.none

/-- Coerce a dynamic value into a non-null integer column, keeping the
old value when the shape does not fit (no such call occurs in the code:
the only setter call writes a string to `translated_text`). -/
def Value.asNatD (d : Nat) : Value → Nat
  | .vNat n => n
  | _ => d

/-- `setattr(content, attribute_name, new_value)` over the `ContentModel`
columns (`database.py` line 103). Only called on known names. -/
def ContentRow.setAttr (c : ContentRow) (name : String) (v : Value) : ContentRow :=
  if name = "id" then { c with id := v.asNatD c.id }
  else if name = "source_id" then { c with source_id := v.asNatD c.source_id }
  else if name = "collection_time" then { c with collection_time := v.asNatOpt }
  else if name = "origin_time" then { c with origin_time := v.asNatOpt }
  else if name = "translated" then { c with translated := v.truthy }
  else if name = "analysed" then { c with analysed := v.truthy }
  else if name = "original_text" then { c with original_text := v.asStrOpt }
  else if name = "translated_text" then { c with translated_text := v.asStrOpt }
  else if name = "content_metadata" then { c with content_metadata := v.asStrOpt }
  else c

/-- `getattr(source, attribute_name, None)` over the `SourceModel`
columns (`database.py` line 122). -/
def SourceRow.getAttr (s : SourceRow) (name : String) : Value :=
  if name = "id" then .vNat s.id
  else if name = "collector_id" then .vNat s.collector_id
  else if name = "uid" then .vStr s.uid
  else if name = "friendly_name" then optStrVal s.friendly_name
  else if name = "user_note" then optStrVal s.user_note
  else if name = "enabled" then .vBool s.enabled
  else if name = "source_metadata" then optStrVal s.source_metadata
  else .none

/-- `session.query(ContentModel).filter_by(id=content_id).first()`. -/
def DB.findContent (db : DB) (content_id : Nat) : Option ContentRow :=
  db.contents.find? (fun c => c.id == content_id)

/-- `session.query(SourceModel).filter_by(id=source_id).first()`, where
`source_id` is a dynamic value as in `analyse.py` (it compares equal to a
row id only when it is that integer). -/
def DB.findSourceById (db : DB) (source_id : Value) : Option SourceRow :=
  db.sources.find? (fun s => source_id == Value.vNat s.id)

/-- `Database.get_content_attribute` (`database.py` lines 82-91). -/
def Database.get_content_attribute (db : DB) (content_id : Nat)
    (attribute_name : String) : Except PyError Value :=
  match db.findContent content_id with
  | Option.some content => .ok (content.getAttr attribute_name)
  | Option.none => .error .contentNotFound

/-- `Database.set_content_attribute` (`database.py` lines 95-112):
updates the first row matching `content_id` in place. -/
def Database.set_content_attribute (db : DB) (content_id : Nat)
    (attribute_name : String) (new_value : Value) : Except PyError DB :=
  match db.findContent content_id with
  | Option.some _ =>
      if ContentRow.hasAttr attribute_name then
        .ok { db with contents := db.contents.map (fun c =>
                if c.id == content_id then c.setAttr attribute_name new_value
                else c) }
      else .error .attributeError
  | Option.none => .error .contentNotFound

/-- `Database.get_source_attribute` (`database.py` lines 116-125); a
missing source raises `ContentNotFoundError` (the class is reused). -/
def Database.get_source_attribute (db : DB) (source_id : Value)
    (attribute_name : String) : Except PyError Value :=
  match db.findSourceById source_id with
  | Option.some source => .ok (source.getAttr attribute_name)
  | Option.none => .error .contentNotFound

/-- The dict built per enabled requirement by
`Database.get_analysis_requirements` (`database.py` lines 138-143). -/
structure ReqDict where
  req_id : Nat
  name : String
  llm_id : Nat
  prompt : Option String
deriving DecidableEq, Repr

/-- The dict `{'req_id': ..., 'name': ..., 'llm_id': ..., 'prompt': ...}`. -/
def RequirementRow.toDict (r : RequirementRow) : ReqDict :=
  { req_id := r.id, name := r.name, llm_id := r.llm_id, prompt := r.prompt }

/-- The accumulation loop of `get_analysis_requirements`
(`database.py` lines 136-143): append a dict for each enabled row. -/
def gatherRequirements : List RequirementRow → List ReqDict → List ReqDict
  | [], acc => acc
  | r :: rs, acc =>
      if r.enabled then gatherRequirements rs (acc ++ [r.toDict])
      else gatherRequirements rs acc

/-- `Database.get_analysis_requirements` (`database.py` lines 129-145):
query rows filtered by `source_id`, then keep the enabled ones. Total:
an unknown `source_id` simply yields the empty list. -/
def Database.get_analysis_requirements (db : DB) (source_id : Value) :
    List ReqDict :=
  let analysis_requirements :=
    db.requirements.filter (fun r => source_id == Value.vNat r.source_id)
  gatherRequirements analysis_requirements []

/-- `Database.save_analysis_result` (`database.py` lines 149-158):
append a new row and return its autoincremented id. -/
def Database.save_analysis_result (db : DB) (content_id : Nat)
    (req_id : Nat) (output : String) : DB × Nat :=
  let new_id := db.nextResultId
  ({ db with
      results := db.results ++
        [{ id := new_id, req_id := req_id, content_id := content_id,
           output := output }],
      nextResultId := new_id + 1 }, new_id)

/-- A task sent to the queue broker (`app.send_task` in `telegram.py`
and `tasks/translate.py`). -/
inductive Task where
  | translate : Nat → Task
  | analyse : Nat → Task
deriving DecidableEq, Repr

/-- `Collector.add_source` (`collector.py` lines 122-160): look up the
`(uid, collector_id)` pair; if absent, insert a new enabled row and
return it; if present, leave the store untouched and return `None`. -/
def Collector.add_source (db : DB) (collector_id : Nat) (uid : String)
    (friendly_name : String) : DB × Option SourceRow :=
  let existing_source := db.sources.find?
    (fun s => s.uid == uid && s.collector_id == collector_id)
  match existing_source with
  | Option.none =>
      let new_source : SourceRow :=
        { id := db.nextSourceId, collector_id := collector_id, uid := uid,
          friendly_name := Option.some friendly_name,
          user_note := Option.none, enabled := true,
          source_metadata := Option.none }
      ({ db with sources := db.sources ++ [new_source],
                 nextSourceId := db.nextSourceId + 1 },
       Option.some new_source)
  | Option.some _ => (db, Option.none)

/-- `Collector.add_content` (`collector.py` lines 164-197): look up the
source by `(uid, collector_id)`; if absent return `None`, else append a
content row (no emptiness check on `text`) and return its id. -/
def Collector.add_content (db : DB) (collector_id : Nat)
    (source_uid : String) (origin_time : Option Nat) (text : String)
    (metadata : Option String) : DB × Option Nat :=
  let source := db.sources.find?
    (fun s => s.uid == source_uid && s.collector_id == collector_id)
  match source with
  | Option.none => (db, Option.none)
  | Option.some source =>
      let new_content : ContentRow :=
        { id := db.nextContentId, source_id := source.id,
          collection_time := Option.none, origin_time := origin_time,
          translated := false, analysed := false,
          original_text := Option.some text,
          translated_text := Option.none, content_metadata := metadata }
      ({ db with contents := db.contents ++ [new_content],
                 nextContentId := db.nextContentId + 1 },
       Option.some new_content.id)

/-- The storage decision of `TelegramCollector.process_message`
(`telegram.py` lines 132-144): only non-empty message text is stored
(`if len(event.message.message):`), and a translate-task is enqueued
only when `add_content` returned a truthy content id. `message` is
`None` when the event carries no message body. -/
def TelegramCollector.process_message_store (db : DB) (collector_id : Nat)
    (sender_uid : String) (message_date : Option Nat)
    (message : Option String) : DB × List Task :=
  match message with
  | Option.none => (db, [])
  | Option.some text =>
      if text.length ≠ 0 then
        let (db', content_id) :=
          Collector.add_content db collector_id sender_uid message_date text
            (Option.some "\x7b\x7d")
        match content_id with
        | Option.some cid =>
            if cid ≠ 0 then (db', [Task.translate cid]) else (db', [])
        | Option.none => (db', [])
      else (db, [])

/-- A registered translation provider: `service.translate(text)` either
raises (modelled `.error`) or returns `None` or a string (`.ok`). -/
def TransProvider := String → Except PyError (Option String)

/-- A registered analysis provider: `service.analyse(prompt, text)`
either raises `ValueError`/`AnalysisException` (modelled `.error`) or
returns the analysis output. The prompt is the requirement's nullable
`prompt` column and the text is the dynamic `translated_text` value. -/
def AnaProvider := Option String → Value → Except PyError String

/-- A service registry (`TranslationService._registry` /
`AnalysisService._registry`): `get_service(uid)` is `dict.get`. -/
def Registry (α : Type) := String → Option α

/-- `translate_content` (`tasks/translate.py` lines 33-88), with the
already-loaded registry abstracted as a parameter. Returns the store
state, the tasks sent, and the outcome (`.error` = exception propagated
to Celery, `.ok b` = function returned `b`). Steps: read
`original_text` (slicing it for the log raises `TypeError` unless it is
a string); resolve `'gpt3.5'` (calling a `None` lookup result raises
`TypeError`); invoke the provider; on falsy translated text return
`False` with nothing persisted; else persist `translated_text` via
`set_content_attribute` and send `analyse_content`. -/
def translate_content (registry : Registry TransProvider) (db : DB)
    (content_id : Nat) : DB × List Task × Except PyError Bool :=
  match Database.get_content_attribute db content_id "original_text" with
  | .error e => (db, [], .error e)
  | .ok v =>
      match v with
      | .vStr original_text =>
          match registry "gpt3.5" with
          | Option.none => (db, [], .error .typeError)
          | Option.some service =>
              match service original_text with
              | .error e => (db, [], .error e)
              | .ok translated_opt =>
                  match translated_opt with
                  | Option.none => (db, [], .ok false)
                  | Option.some translated_text =>
                      if translated_text = "" then (db, [], .ok false)
                      else
                        match Database.set_content_attribute db content_id
                            "translated_text" (.vStr translated_text) with
                        | .error e => (db, [], .error e)
                        | .ok db' =>
                            (db', [Task.analyse content_id], .ok true)
      | _ => (db, [], .error .typeError)

/-- The per-requirement loop of `analyse_content`
(`tasks/analyse.py` lines 91-122): for each requirement resolve the
service under the fixed id `'gpt3.5'` (a missing service returns
`False`, keeping results saved so far), invoke `analyse`, re-raise its
errors, and append one result row per success. -/
def processRequirements (registry : Registry AnaProvider)
    (content_id : Nat) (translated_text : Value) (db : DB) :
    List ReqDict → DB × Except PyError (Option Bool)
  | [] => (db, .ok (Option.some true))
  | requirement :: rest =>
      match registry "gpt3.5" with
      | Option.none => (db, .ok (Option.some false))
      | Option.some service =>
          match service requirement.prompt translated_text with
          | .error e => (db, .error e)
          | .ok analysis =>
              let (db', _new_id) :=
                Database.save_analysis_result db content_id
                  requirement.req_id analysis
              processRequirements registry content_id translated_text db' rest

/-- `analyse_content` (`tasks/analyse.py` lines 40-127), with the loaded
registry abstracted as a parameter. Outcome `.ok none` models the
`return None` taken when the owning source is disabled (an explicit
skip, no exception), `.ok (some b)` a `return b`, `.error` a raised
exception. Steps: read `translated_text` and `source_id`; read the
source's `enabled` attribute (raises the not-found error when the
source row is absent); skip when falsy; gather the enabled requirements
and run the per-requirement loop. -/
def analyse_content (registry : Registry AnaProvider) (db : DB)
    (content_id : Nat) : DB × Except PyError (Option Bool) :=
  match Database.get_content_attribute db content_id "translated_text" with
  | .error e => (db, .error e)
  | .ok translated_text =>
      match Database.get_content_attribute db content_id "source_id" with
      | .error e => (db, .error e)
      | .ok source_id =>
          match Database.get_source_attribute db source_id "enabled" with
          | .error e => (db, .error e)
          | .ok source_enabled =>
              if !source_enabled.truthy then (db, .ok Option.none)
              else
                let requirements :=
                  Database.get_analysis_requirements db source_id
                processRequirements registry content_id translated_text db
                  requirements

/-! ### Concrete fixtures (the end-to-end scenario of the spec, §8) -/

/-- An enabled source, id 7, owned by collector 1. -/
def fixSource : SourceRow :=
  { id := 7, collector_id := 1, uid := "chan-42",
    friendly_name := Option.some "News Channel", user_note := Option.none,
    enabled := true, source_metadata := Option.none }

/-- A disabled source, id 9, owned by collector 1. -/
def fixSourceOff : SourceRow :=
  { id := 9, collector_id := 1, uid := "quiet",
    friendly_name := Option.some "Quiet Channel", user_note := Option.none,
    enabled := false, source_metadata := Option.none }

/-- One enabled analysis requirement for source 7. -/
def fixReq : RequirementRow :=
  { id := 5, source_id := 7, llm_id := 3, name := "sentiment",
    prompt := Option.some "sentiment", enabled := true }

/-- Content 101, owned by source 7, not yet translated. -/
def fixContent : ContentRow :=
  { id := 101, source_id := 7, collection_time := Option.none,
    origin_time := Option.some 0, translated := false, analysed := false,
    original_text := Option.some "Bonjour le monde",
    translated_text := Option.none, content_metadata := Option.none }

/-- Content 102, owned by the disabled source 9, already translated. -/
def fixContentOff : ContentRow :=
  { id := 102, source_id := 9, collection_time := Option.none,
    origin_time := Option.some 0, translated := false, analysed := false,
    original_text := Option.some "Hei maailma",
    translated_text := Option.some "Hello world",
    content_metadata := Option.none }

/-- Store before the translation stage runs on content 101. -/
def fixDB : DB :=
  { sources := [fixSource, fixSourceOff], contents := [fixContent],
    requirements := [fixReq], results := [],
    nextSourceId := 10, nextContentId := 103, nextResultId := 1 }

/-- Store after a successful translation of content 101 (as the analysis
stage would see it). -/
def fixDBT : DB :=
  { fixDB with contents :=
      [{ fixContent with translated_text := Option.some "Hello world" },
       fixContentOff] }

/-- A stub translation provider: maps `"Bonjour le monde"` to
`"Hello world"` and returns `None` (a provider-side failure) on
anything else. -/
def fixTransFn : TransProvider :=
  fun t =>
    if t = "Bonjour le monde" then .ok (Option.some "Hello world")
    else .ok Option.none

/-- A stub translation provider registry holding `fixTransFn` under
`'gpt3.5'`. -/
def fixTransReg : Registry TransProvider :=
  fun s => if s = "gpt3.5" then Option.some fixTransFn else Option.none

/-- A stub analysis provider answering `"neutral"` to everything. -/
def fixAnaFn : AnaProvider := fun _ _ => .ok "neutral"

/-- A stub analysis provider registry holding `fixAnaFn` under
`'gpt3.5'`. -/
def fixAnaReg : Registry AnaProvider :=
  fun s => if s = "gpt3.5" then Option.some fixAnaFn else Option.none

/-- The same store with every requirement's `llm_id` replaced
arbitrarily — the shape of counterfactual used to show that provider
selection ignores `llm_id`. -/
def mapLlmIds (db : DB) (f : RequirementRow → Nat) : DB :=
  { db with requirements :=
      db.requirements.map (fun r => { r with llm_id := f r }) }

end OsintAnalyser

namespace OsintAnalyser

/-- C1. The translation stage, run successfully on content 101 (stub
provider returns `"Hello world"`, stage returns `True` and enqueues the
analyse-task), persists `translated_text` — but the `translated` flag is
still `false` afterwards: `translate_content` only ever calls
`set_content_attribute(content_id, 'translated_text', ...)` and no code
path writes the `translated` column, contradicting the claimed single
transactional update of both fields. -/
theorem translate_success_leaves_translated_flag_false :
    (translate_content fixTransReg fixDB 101).2.2 = Except.ok true
    ∧ (translate_content fixTransReg fixDB 101).2.1 = [Task.analyse 101]
    ∧ ((translate_content fixTransReg fixDB 101).1.findContent 101).map
        (fun c => c.translated_text) =
        Option.some (Option.some "Hello world")
    ∧ ((translate_content fixTransReg fixDB 101).1.findContent 101).map
        (fun c => c.translated) = Option.some false := by
  decide

/-- C2. A fully successful analysis-stage invocation on content 101
(source enabled, its one enabled requirement produces a result, the task
returns `True`) leaves the `analysed` flag `false`: no code path in
`analyse_content` writes the `analysed` column, contradicting the
claimed false→true transition. -/
theorem analyse_success_leaves_analysed_flag_false :
    (analyse_content fixAnaReg fixDBT 101).2 =
      Except.ok (Option.some true)
    ∧ ((analyse_content fixAnaReg fixDBT 101).1.results).map
        (fun r => (r.req_id, r.content_id, r.output)) = [(5, 101, "neutral")]
    ∧ ((analyse_content fixAnaReg fixDBT 101).1.findContent 101).map
        (fun c => c.analysed) = Option.some false := by
  decide

/-- A non-empty string has non-zero length (`len(text)` truthiness in
`process_message`). -/
theorem string_length_ne_zero (t : String) (ht : t ≠ "") : t.length ≠ 0 := by
  cases t with
  | mk data =>
    simp [String.length]
    intro h
    apply ht
    simp [h]

/-- C4 counterexample: `Collector.add_content` called with the empty
string as `text` on a store whose source exists does create a Content
row (one more row, empty `original_text`), refuting the claim that no
row is created for empty text: the emptiness guard is not in
`add_content`. -/
theorem add_content_empty_text_creates_row :
    (Collector.add_content fixDB 1 "chan-42" (Option.some 0) ""
        Option.none).2 = Option.some 103
    ∧ (Collector.add_content fixDB 1 "chan-42" (Option.some 0) ""
        Option.none).1.contents.length = fixDB.contents.length + 1
    ∧ ((Collector.add_content fixDB 1 "chan-42" (Option.some 0) ""
        Option.none).1.findContent 103).map (fun c => c.original_text) =
        Option.some (Option.some "") := by
  decide

/-- C4 (amended): the empty-text guard lives in the caller
`TelegramCollector.process_message`, not in `add_content`: the message
path stores nothing and enqueues nothing for absent or empty text, and
for non-empty text it calls `add_content` and enqueues exactly one
translate-task for the returned content id (when that id is truthy);
when the source is unknown (`add_content` returns `None`) nothing is
enqueued. -/
theorem process_message_guards_empty_text (db : DB) (coll : Nat)
    (uid : String) (date : Option Nat) :
    TelegramCollector.process_message_store db coll uid date Option.none =
      (db, [])
    ∧ TelegramCollector.process_message_store db coll uid date
        (Option.some "") = (db, [])
    ∧ (∀ (t : String) (cid : Nat), t ≠ "" → cid ≠ 0 →
        (Collector.add_content db coll uid date t
            (Option.some "\x7b\x7d")).2 = Option.some cid →
        TelegramCollector.process_message_store db coll uid date
            (Option.some t) =
          ((Collector.add_content db coll uid date t
              (Option.some "\x7b\x7d")).1, [Task.translate cid]))
    ∧ (∀ t : String, t ≠ "" →
        (Collector.add_content db coll uid date t
            (Option.some "\x7b\x7d")).2 = Option.none →
        TelegramCollector.process_message_store db coll uid date
            (Option.some t) =
          ((Collector.add_content db coll uid date t
              (Option.some "\x7b\x7d")).1, [])) := by
  refine ⟨rfl, ?_, ?_, ?_⟩
  · simp [TelegramCollector.process_message_store]
  · intro t cid ht hcid hadd
    simp [TelegramCollector.process_message_store,
      string_length_ne_zero t ht, hadd, hcid]
  · intro t ht hadd
    simp [TelegramCollector.process_message_store,
      string_length_ne_zero t ht, hadd]

/-- C4 witness: on the fixture store, a non-empty French message through
the Telegram path creates content 103 and enqueues exactly
`translate(103)`. -/
theorem process_message_guards_empty_text_witness :
    TelegramCollector.process_message_store fixDB 1 "chan-42"
        (Option.some 0) (Option.some "Bonjour le monde") =
      ((Collector.add_content fixDB 1 "chan-42" (Option.some 0)
          "Bonjour le monde" (Option.some "\x7b\x7d")).1,
       [Task.translate 103]) :=
  (process_message_guards_empty_text fixDB 1 "chan-42"
      (Option.some 0)).2.2.1 "Bonjour le monde" 103 (by decide) (by decide)
      (by decide)

/-- C5: `Collector.add_source` is idempotent on the natural key: when a
row with the given `(uid, collector_id)` pair already exists, the store
is unchanged and `None` (the unambiguous already-exists signal — a
fresh insert always returns the row) is returned; when no such row
exists, exactly one new enabled row carrying that pair is appended and
returned. -/
theorem add_source_idempotent_on_natural_key (db : DB) (coll : Nat)
    (uid fn : String) :
    ((db.sources.find? (fun s =>
        s.uid == uid && s.collector_id == coll)).isSome →
      Collector.add_source db coll uid fn = (db, Option.none))
    ∧ (db.sources.find? (fun s =>
        s.uid == uid && s.collector_id == coll) = Option.none →
      ∃ ns : SourceRow,
        Collector.add_source db coll uid fn =
          ({ db with sources := db.sources ++ [ns],
                     nextSourceId := db.nextSourceId + 1 },
           Option.some ns)
        ∧ ns.uid = uid ∧ ns.collector_id = coll ∧ ns.enabled = true
        ∧ ns.id = db.nextSourceId) := by
  constructor
  · intro hex
    rcases Option.isSome_iff_exists.mp hex with ⟨s, hs⟩
    simp [Collector.add_source, hs]
  · intro hnone
    refine ⟨{ id := db.nextSourceId, collector_id := coll, uid := uid,
              friendly_name := Option.some fn, user_note := Option.none,
              enabled := true, source_metadata := Option.none },
            ?_, rfl, rfl, rfl, rfl⟩
    simp [Collector.add_source, hnone]

/-- C5 witness: re-adding `("chan-42", 1)` to the fixture store changes
nothing and signals already-exists; adding the fresh `("chan-77", 1)`
appends one new enabled row with id 10. -/
theorem add_source_idempotent_on_natural_key_witness :
    Collector.add_source fixDB 1 "chan-42" "News Channel" =
      (fixDB, Option.none)
    ∧ ∃ ns : SourceRow,
        Collector.add_source fixDB 1 "chan-77" "Fresh Channel" =
          ({ fixDB with sources := fixDB.sources ++ [ns],
                        nextSourceId := fixDB.nextSourceId + 1 },
           Option.some ns)
        ∧ ns.uid = "chan-77" ∧ ns.collector_id = 1 ∧ ns.enabled = true
        ∧ ns.id = fixDB.nextSourceId :=
  ⟨(add_source_idempotent_on_natural_key fixDB 1 "chan-42"
      "News Channel").1 (by decide),
   (add_source_idempotent_on_natural_key fixDB 1 "chan-77"
      "Fresh Channel").2 (by decide)⟩

/-- C6: when the owning source of an existing content row has
`enabled = false`, the analysis stage returns early via `return None`:
the store is untouched (in particular zero AnalysisResult rows are
appended) and the outcome is a plain return, not an exception. -/
theorem analyse_disabled_source_skips (registry : Registry AnaProvider)
    (db : DB) (cid : Nat) (c : ContentRow) (s : SourceRow)
    (hc : db.findContent cid = Option.some c)
    (hs : db.findSourceById (Value.vNat c.source_id) = Option.some s)
    (hoff : s.enabled = false) :
    analyse_content registry db cid = (db, .ok Option.none) := by
  have h1 : Database.get_content_attribute db cid "translated_text" =
      .ok (c.getAttr "translated_text") := by
    simp [Database.get_content_attribute, hc]
  have h2 : Database.get_content_attribute db cid "source_id" =
      .ok (Value.vNat c.source_id) := by
    simp [Database.get_content_attribute, hc]
    rfl
  have h3 : Database.get_source_attribute db (Value.vNat c.source_id)
      "enabled" = .ok (Value.vBool s.enabled) := by
    simp [Database.get_source_attribute, hs]
    rfl
  simp [analyse_content, h1, h2, h3, hoff, Value.truthy]

/-- C6 witness: content 102 of the fixture store is owned by the
disabled source 9; the stage leaves the store unchanged and returns
`None`. -/
theorem analyse_disabled_source_skips_witness :
    analyse_content fixAnaReg fixDBT 102 = (fixDBT, .ok Option.none) :=
  analyse_disabled_source_skips fixAnaReg fixDBT 102 fixContentOff
    fixSourceOff (by decide) (by decide) (by decide)

/-- C7: when the resolved translation provider fails on the content's
original text — it raises, returns `None`, or returns falsy (empty)
text — the translation stage persists nothing (the store is returned
unchanged; `set_content_attribute` is never reached), enqueues no
analyse-task, and does not report success, so the queue layer sees the
attempt as not-succeeded. -/
theorem translate_provider_failure_no_commit
    (registry : Registry TransProvider) (db : DB) (cid : Nat)
    (c : ContentRow) (s : String) (service : TransProvider)
    (hc : db.findContent cid = Option.some c)
    (ht : c.original_text = Option.some s)
    (hreg : registry "gpt3.5" = Option.some service)
    (hfail : (∃ e, service s = .error e) ∨ service s = .ok Option.none
      ∨ service s = .ok (Option.some "")) :
    (translate_content registry db cid).1 = db
    ∧ (translate_content registry db cid).2.1 = []
    ∧ (translate_content registry db cid).2.2 ≠ .ok true := by
  have h1 : Database.get_content_attribute db cid "original_text" =
      .ok (Value.vStr s) := by
    simp [Database.get_content_attribute, hc]
    rw [show c.getAttr "original_text" = optStrVal c.original_text from rfl,
      ht]
    rfl
  rcases hfail with ⟨e, hsvc⟩ | hsvc | hsvc <;>
    simp [translate_content, h1, hreg, hsvc]

/-- C7 witness: the stub provider returns `None` on `"Hei maailma"`
(content 102), and the stage leaves the fixture store unchanged,
enqueues nothing, and does not succeed. -/
theorem translate_provider_failure_no_commit_witness :
    (translate_content fixTransReg fixDBT 102).1 = fixDBT
    ∧ (translate_content fixTransReg fixDBT 102).2.1 = []
    ∧ (translate_content fixTransReg fixDBT 102).2.2 ≠ .ok true :=
  translate_provider_failure_no_commit fixTransReg fixDBT 102
    fixContentOff "Hei maailma" fixTransFn (by decide) (by decide) rfl
    (Or.inr (Or.inl (by decide)))

/-- The accumulation loop of `get_analysis_requirements` appends one
dict per enabled row, in query order. -/
theorem gatherRequirements_eq :
    ∀ (rs : List RequirementRow) (acc : List ReqDict),
    gatherRequirements rs acc =
      acc ++ (rs.filter (fun r => r.enabled)).map RequirementRow.toDict := by
  intro rs
  induction rs with
  | nil => intro acc; simp [gatherRequirements]
  | cons r rs ih =>
    intro acc
    by_cases h : r.enabled
    · simp [gatherRequirements, h, ih]
    · simp [gatherRequirements, h, ih]

/-- `get_analysis_requirements` as the two-stage filter it implements:
rows matching the dynamic `source_id`, then the enabled ones. -/
theorem get_analysis_requirements_eq (db : DB) (v : Value) :
    Database.get_analysis_requirements db v =
      ((db.requirements.filter (fun r => v == Value.vNat r.source_id)).filter
        (fun r => r.enabled)).map RequirementRow.toDict := by
  simp [Database.get_analysis_requirements, gatherRequirements_eq]

/-- For an integer `source_id`, `get_analysis_requirements` returns
exactly the enabled requirements of that source, as dicts, in row
order. -/
theorem get_analysis_requirements_filter (db : DB) (sid : Nat) :
    Database.get_analysis_requirements db (Value.vNat sid) =
      (db.requirements.filter (fun r => r.source_id = sid ∧ r.enabled)).map
        RequirementRow.toDict := by
  rw [get_analysis_requirements_eq, List.filter_filter]
  congr 1
  apply List.filter_congr
  intro r _
  rw [Bool.eq_iff_iff]
  simp only [Bool.and_eq_true, beq_iff_eq, decide_eq_true_eq,
    Value.vNat.injEq]
  exact ⟨fun ⟨a, b⟩ => ⟨b.symm, a⟩, fun ⟨a, b⟩ => ⟨b, a.symm⟩⟩

/-- C9: `get_analysis_requirements` returns exactly the enabled
requirements of the given source, each as the
`req_id`/`name`/`llm_id`/`prompt` dict; it is total, returning `[]`
when the source has no requirement rows (including when it does not
exist at all) — whereas `get_source_attribute` and
`get_content_attribute` raise the not-found error for a missing row. -/
theorem get_analysis_requirements_exact_and_total (db : DB) (sid : Nat)
    (cid : Nat) (attr : String) :
    Database.get_analysis_requirements db (Value.vNat sid) =
      (db.requirements.filter (fun r => r.source_id = sid ∧ r.enabled)).map
        RequirementRow.toDict
    ∧ (db.requirements.filter (fun r => r.source_id = sid) = [] →
        Database.get_analysis_requirements db (Value.vNat sid) = [])
    ∧ (db.findSourceById (Value.vNat sid) = Option.none →
        Database.get_source_attribute db (Value.vNat sid) attr =
          .error .contentNotFound)
    ∧ (db.findContent cid = Option.none →
        Database.get_content_attribute db cid attr =
          .error .contentNotFound) := by
  refine ⟨get_analysis_requirements_filter db sid, ?_, ?_, ?_⟩
  · intro hempty
    rw [get_analysis_requirements_filter]
    have hsub : db.requirements.filter
        (fun r => decide (r.source_id = sid ∧ r.enabled = true)) = [] := by
      rw [List.filter_eq_nil_iff] at hempty ⊢
      intro a ha hdec
      exact hempty a ha (by
        simp only [decide_eq_true_eq] at hdec ⊢
        exact hdec.1)
    rw [hsub]
    rfl
  · intro hnone
    simp [Database.get_source_attribute, hnone]
  · intro hnone
    simp [Database.get_content_attribute, hnone]

/-- C9 witness: on the fixture store, source 7 yields exactly its one
enabled requirement as a dict; the unknown source 99 yields `[]` from
`get_analysis_requirements` but the not-found error from
`get_source_attribute`, and the unknown content 999 the not-found error
from `get_content_attribute`. -/
theorem get_analysis_requirements_exact_and_total_witness :
    Database.get_analysis_requirements fixDB (Value.vNat 7) =
      [{ req_id := 5, name := "sentiment", llm_id := 3,
         prompt := Option.some "sentiment" }]
    ∧ Database.get_analysis_requirements fixDB (Value.vNat 99) = []
    ∧ Database.get_source_attribute fixDB (Value.vNat 99) "enabled" =
        .error .contentNotFound
    ∧ Database.get_content_attribute fixDB 999 "enabled" =
        .error .contentNotFound :=
  ⟨(get_analysis_requirements_exact_and_total fixDB 7 999 "enabled").1.trans
      (by decide),
   (get_analysis_requirements_exact_and_total fixDB 99 999 "enabled").2.1
      (by decide),
   (get_analysis_requirements_exact_and_total fixDB 99 999 "enabled").2.2.1
      (by decide),
   (get_analysis_requirements_exact_and_total fixDB 99 999 "enabled").2.2.2
      (by decide)⟩

/-- `getattr(content, name, None)` yields the `None` default for a name
outside the column set. -/
theorem getAttr_of_unknown_name (c : ContentRow) (name : String)
    (h : ContentRow.hasAttr name = false) : c.getAttr name = Value.none := by
  simp only [ContentRow.hasAttr, Bool.or_eq_false_iff,
    decide_eq_false_iff_not] at h
  obtain ⟨⟨⟨⟨⟨⟨⟨⟨h1, h2⟩, h3⟩, h4⟩, h5⟩, h6⟩, h7⟩, h8⟩, h9⟩ := h
  simp [ContentRow.getAttr, h1, h2, h3, h4, h5, h6, h7, h8, h9]

/-- C10: on an existing content row, `get_content_attribute` with an
unknown attribute name returns `None` (the `getattr` default) without
raising, while `set_content_attribute` with the same unknown name
raises `AttributeError` (its `hasattr` guard); on a missing content id
both raise `ContentNotFoundError`. -/
theorem content_attribute_unknown_vs_missing (db : DB) (cid : Nat)
    (name : String) (v : Value) :
    ((db.findContent cid).isSome → ContentRow.hasAttr name = false →
      Database.get_content_attribute db cid name = .ok Value.none
      ∧ Database.set_content_attribute db cid name v =
          .error .attributeError)
    ∧ (db.findContent cid = Option.none →
      Database.get_content_attribute db cid name = .error .contentNotFound
      ∧ Database.set_content_attribute db cid name v =
          .error .contentNotFound) := by
  constructor
  · intro hsome hattr
    rcases Option.isSome_iff_exists.mp hsome with ⟨c, hc⟩
    constructor
    · simp [Database.get_content_attribute, hc,
        getAttr_of_unknown_name c name hattr]
    · simp [Database.set_content_attribute, hc, hattr]
  · intro hnone
    constructor <;>
      simp [Database.get_content_attribute,
        Database.set_content_attribute, hnone]

/-- C10 witness: on the fixture store, content 101 with the unknown
name `"favourite_colour"` gives `None` on read and `AttributeError` on
write; the missing content 999 gives `ContentNotFoundError` both
ways. -/
theorem content_attribute_unknown_vs_missing_witness :
    Database.get_content_attribute fixDB 101 "favourite_colour" =
      .ok Value.none
    ∧ Database.set_content_attribute fixDB 101 "favourite_colour"
        (.vStr "x") = .error .attributeError
    ∧ Database.get_content_attribute fixDB 999 "translated" =
        .error .contentNotFound
    ∧ Database.set_content_attribute fixDB 999 "translated" (.vStr "x") =
        .error .contentNotFound :=
  ⟨((content_attribute_unknown_vs_missing fixDB 101 "favourite_colour"
      (.vStr "x")).1 (by decide) (by decide)).1,
   ((content_attribute_unknown_vs_missing fixDB 101 "favourite_colour"
      (.vStr "x")).1 (by decide) (by decide)).2,
   ((content_attribute_unknown_vs_missing fixDB 999 "translated"
      (.vStr "x")).2 (by decide)).1,
   ((content_attribute_unknown_vs_missing fixDB 999 "translated"
      (.vStr "x")).2 (by decide)).2⟩

/-- The requirement loop, when it ends in `return True`, has appended
exactly one result row per processed requirement dict, in order, each
carrying that dict's `req_id` and the stage's content id. -/
theorem processRequirements_ok_true (registry : Registry AnaProvider)
    (cid : Nat) (text : Value) :
    ∀ (reqs : List ReqDict) (db db' : DB),
    processRequirements registry cid text db reqs =
      (db', .ok (Option.some true)) →
    ∃ newRows : List ResultRow,
      db'.results = db.results ++ newRows
      ∧ newRows.map (fun r => r.req_id) = reqs.map (fun d => d.req_id)
      ∧ ∀ r ∈ newRows, r.content_id = cid := by
  intro reqs
  induction reqs with
  | nil =>
    intro db db' h
    simp only [processRequirements, Prod.mk.injEq] at h
    exact ⟨[], by simp [← h.1], by simp, by simp⟩
  | cons d rest ih =>
    intro db db' h
    rw [processRequirements] at h
    cases hreg : registry "gpt3.5" with
    | none => simp only [hreg] at h; simp at h
    | some service =>
      simp only [hreg] at h
      cases hsvc : service d.prompt text with
      | error e => simp only [hsvc] at h; simp at h
      | ok analysis =>
        simp only [hsvc] at h
        obtain ⟨newRows, hres, hmap, hcid⟩ := ih _ _ h
        refine ⟨{ id := db.nextResultId, req_id := d.req_id,
                  content_id := cid, output := analysis } :: newRows,
                ?_, ?_, ?_⟩
        · rw [hres]
          simp [Database.save_analysis_result]
        · simp [hmap]
        · intro r hr
          rcases List.mem_cons.mp hr with h' | h'
          · rw [h']
          · exact hcid r h'

/-- An analysis-stage invocation that returns `True` necessarily passed
all early exits and ran the requirement loop on the enabled
requirements of the content's source, starting from the untouched
store. -/
theorem analyse_content_success_run (registry : Registry AnaProvider)
    (db : DB) (cid : Nat) (c : ContentRow)
    (hc : db.findContent cid = Option.some c)
    (hsucc : (analyse_content registry db cid).2 = .ok (Option.some true)) :
    analyse_content registry db cid =
      processRequirements registry cid (c.getAttr "translated_text") db
        (Database.get_analysis_requirements db (Value.vNat c.source_id)) := by
  have h1 : Database.get_content_attribute db cid "translated_text" =
      .ok (c.getAttr "translated_text") := by
    simp [Database.get_content_attribute, hc]
  have h2 : Database.get_content_attribute db cid "source_id" =
      .ok (Value.vNat c.source_id) := by
    simp [Database.get_content_attribute, hc]; rfl
  cases hfs : db.findSourceById (Value.vNat c.source_id) with
  | none =>
    exfalso
    have h3 : Database.get_source_attribute db (Value.vNat c.source_id)
        "enabled" = .error .contentNotFound := by
      simp [Database.get_source_attribute, hfs]
    simp [analyse_content, h1, h2, h3] at hsucc
  | some s =>
    have h3 : Database.get_source_attribute db (Value.vNat c.source_id)
        "enabled" = .ok (.vBool s.enabled) := by
      simp [Database.get_source_attribute, hfs]; rfl
    cases he : s.enabled with
    | false =>
      exfalso
      simp [analyse_content, h1, h2, h3, he, Value.truthy] at hsucc
    | true =>
      simp [analyse_content, h1, h2, h3, he, Value.truthy]

/-- C3: a fully successful analysis-stage invocation (outcome
`return True`) on an existing content row appends exactly N
AnalysisResult rows, where N is the number of enabled requirements of
the content's source: the pre-existing results are a prefix, the new
rows' `req_id`s are exactly the enabled requirements' ids (distinct,
given distinct requirement primary keys), and every new row references
the invoked content id. -/
theorem analyse_fully_successful_results (registry : Registry AnaProvider)
    (db : DB) (cid : Nat) (c : ContentRow)
    (hc : db.findContent cid = Option.some c)
    (hnodup : (db.requirements.map (fun r => r.id)).Nodup)
    (hsucc : (analyse_content registry db cid).2 = .ok (Option.some true)) :
    (analyse_content registry db cid).1.results =
      db.results ++
        ((analyse_content registry db cid).1.results.drop db.results.length)
    ∧ ((analyse_content registry db cid).1.results.drop
        db.results.length).length =
      (Database.get_analysis_requirements db (Value.vNat c.source_id)).length
    ∧ ((analyse_content registry db cid).1.results.drop
        db.results.length).map (fun r => r.req_id) =
      (Database.get_analysis_requirements db (Value.vNat c.source_id)).map
        (fun d => d.req_id)
    ∧ (((analyse_content registry db cid).1.results.drop
        db.results.length).map (fun r => r.req_id)).Nodup
    ∧ ∀ r ∈ (analyse_content registry db cid).1.results.drop
        db.results.length, r.content_id = cid := by
  have hrun := analyse_content_success_run registry db cid c hc hsucc
  have hpr : processRequirements registry cid (c.getAttr "translated_text")
      db (Database.get_analysis_requirements db (Value.vNat c.source_id)) =
      ((analyse_content registry db cid).1, .ok (Option.some true)) := by
    rw [← hrun, ← hsucc]
  obtain ⟨newRows, hres, hmap, hcid⟩ :=
    processRequirements_ok_true registry cid (c.getAttr "translated_text")
      (Database.get_analysis_requirements db (Value.vNat c.source_id)) db
      (analyse_content registry db cid).1 hpr
  have hdrop : (analyse_content registry db cid).1.results.drop
      db.results.length = newRows := by
    rw [hres]
    exact List.drop_left _ _
  refine ⟨?_, ?_, ?_, ?_, ?_⟩
  · rw [hdrop]; exact hres
  · rw [hdrop]
    have := congrArg List.length hmap
    simpa using this
  · rw [hdrop]; exact hmap
  · rw [hdrop, hmap, get_analysis_requirements_eq, List.map_map]
    have hsub : (((db.requirements.filter
          (fun r => Value.vNat c.source_id == Value.vNat r.source_id)).filter
            (fun r => r.enabled)).map (fun r => r.id)).Sublist
        (db.requirements.map (fun r => r.id)) :=
      List.Sublist.map _
        ((List.filter_sublist _).trans (List.filter_sublist _))
    exact hsub.nodup hnodup
  · rw [hdrop]; exact hcid

/-- C3 witness: on the translated fixture store, the fully successful
run on content 101 (N = 1 enabled requirement) appends exactly one
result row, with `req_id` 5 and `content_id` 101. -/
theorem analyse_fully_successful_results_witness :
    (analyse_content fixAnaReg fixDBT 101).1.results =
      fixDBT.results ++
        ((analyse_content fixAnaReg fixDBT 101).1.results.drop
          fixDBT.results.length)
    ∧ ((analyse_content fixAnaReg fixDBT 101).1.results.drop
        fixDBT.results.length).length =
      (Database.get_analysis_requirements fixDBT (Value.vNat 7)).length
    ∧ ((analyse_content fixAnaReg fixDBT 101).1.results.drop
        fixDBT.results.length).map (fun r => r.req_id) =
      (Database.get_analysis_requirements fixDBT (Value.vNat 7)).map
        (fun d => d.req_id)
    ∧ (((analyse_content fixAnaReg fixDBT 101).1.results.drop
        fixDBT.results.length).map (fun r => r.req_id)).Nodup
    ∧ ∀ r ∈ (analyse_content fixAnaReg fixDBT 101).1.results.drop
        fixDBT.results.length, r.content_id = 101 :=
  analyse_fully_successful_results fixAnaReg fixDBT 101
    { fixContent with translated_text := Option.some "Hello world" }
    (by decide) (by decide) (by decide)

/-- The requirement loop is insensitive to everything in a requirement
dict except `req_id` and `prompt`: two loops over dicts agreeing on
those projections, started from stores agreeing on results and the
result-id counter, append identical result rows and return the same
outcome. -/
theorem processRequirements_proj_congr (registry : Registry AnaProvider)
    (cid : Nat) (text : Value) :
    ∀ (reqsA reqsB : List ReqDict) (dbA dbB : DB),
    dbA.results = dbB.results → dbA.nextResultId = dbB.nextResultId →
    reqsA.map (fun d => (d.req_id, d.prompt)) =
      reqsB.map (fun d => (d.req_id, d.prompt)) →
    (processRequirements registry cid text dbA reqsA).1.results =
      (processRequirements registry cid text dbB reqsB).1.results
    ∧ (processRequirements registry cid text dbA reqsA).2 =
      (processRequirements registry cid text dbB reqsB).2 := by
  intro reqsA
  induction reqsA with
  | nil =>
    intro reqsB dbA dbB hres hnext hproj
    cases reqsB with
    | nil => exact ⟨hres, rfl⟩
    | cons d l => simp at hproj
  | cons d rest ih =>
    intro reqsB dbA dbB hres hnext hproj
    cases reqsB with
    | nil => simp at hproj
    | cons dB restB =>
      simp only [List.map_cons, List.cons.injEq, Prod.mk.injEq] at hproj
      obtain ⟨⟨hrid, hprompt⟩, htail⟩ := hproj
      rw [processRequirements, processRequirements]
      cases hreg : registry "gpt3.5" with
      | none =>
        simp only [hreg]
        exact ⟨hres, trivial⟩
      | some service =>
        simp only [hreg]
        rw [hprompt]
        cases hsvc : service dB.prompt text with
        | error e =>
          simp only [hsvc]
          exact ⟨hres, trivial⟩
        | ok analysis =>
          simp only [hsvc]
          apply ih restB
          · simp [Database.save_analysis_result, hres, hnext, hrid]
          · simp [Database.save_analysis_result, hnext]
          · exact htail

/-- C8: the analysis stage resolves its provider under the single
hardcoded identifier `'gpt3.5'` for every requirement, so its behaviour
is independent of the requirements' `llm_id` column: replacing every
`llm_id` arbitrarily changes neither the appended result rows nor the
outcome (in particular two requirements differing only in `llm_id` are
served by the same provider). -/
theorem analyse_provider_independent_of_llm_id
    (registry : Registry AnaProvider) (db : DB) (cid : Nat)
    (f : RequirementRow → Nat) :
    (analyse_content registry (mapLlmIds db f) cid).1.results =
      (analyse_content registry db cid).1.results
    ∧ (analyse_content registry (mapLlmIds db f) cid).2 =
      (analyse_content registry db cid).2 := by
  have hproj : ∀ (l : List RequirementRow) (v : Value),
      ((((l.map (fun r => { r with llm_id := f r })).filter
          (fun r => v == Value.vNat r.source_id)).filter
          (fun r => r.enabled)).map RequirementRow.toDict).map
        (fun d => (d.req_id, d.prompt)) =
      (((l.filter (fun r => v == Value.vNat r.source_id)).filter
          (fun r => r.enabled)).map RequirementRow.toDict).map
        (fun d => (d.req_id, d.prompt)) := by
    intro l v
    rw [List.filter_filter, List.filter_filter, List.map_map, List.map_map,
      List.filter_map, List.map_map]
    rw [show ((fun r : RequirementRow =>
          r.enabled && (v == Value.vNat r.source_id)) ∘
        (fun r : RequirementRow => { r with llm_id := f r })) =
        (fun r : RequirementRow =>
          r.enabled && (v == Value.vNat r.source_id)) from
      funext (fun r => rfl)]
    rw [show (((fun d : ReqDict => (d.req_id, d.prompt)) ∘
        RequirementRow.toDict) ∘
        (fun r : RequirementRow => { r with llm_id := f r })) =
        ((fun d : ReqDict => (d.req_id, d.prompt)) ∘
          RequirementRow.toDict) from funext (fun r => rfl)]
  have hct : ∀ a, Database.get_content_attribute (mapLlmIds db f) cid a =
      Database.get_content_attribute db cid a := fun _ => rfl
  have hresx : (mapLlmIds db f).results = db.results := rfl
  have hsa : ∀ v a, Database.get_source_attribute (mapLlmIds db f) v a =
      Database.get_source_attribute db v a := fun _ _ => rfl
  cases h1 : Database.get_content_attribute db cid "translated_text" with
  | error e =>
    constructor <;> simp [analyse_content, hct, hsa, h1, hresx]
  | ok translated_text =>
    cases h2 : Database.get_content_attribute db cid "source_id" with
    | error e =>
      constructor <;> simp [analyse_content, hct, hsa, h1, h2, hresx]
    | ok source_id =>
      cases h3 : Database.get_source_attribute db source_id "enabled" with
      | error e =>
        constructor <;>
          simp [analyse_content, hct, hsa, h1, h2, h3, hresx]
      | ok source_enabled =>
        by_cases h4 : source_enabled.truthy
        · have hred : ∀ dbx : DB,
              analyse_content registry dbx cid =
                processRequirements registry cid translated_text dbx
                  (Database.get_analysis_requirements dbx source_id) →
              True := fun _ _ => trivial
          have hA : analyse_content registry (mapLlmIds db f) cid =
              processRequirements registry cid translated_text
                (mapLlmIds db f)
                (Database.get_analysis_requirements (mapLlmIds db f)
                  source_id) := by
            simp [analyse_content, hct, hsa, h1, h2, h3, h4]
          have hB : analyse_content registry db cid =
              processRequirements registry cid translated_text db
                (Database.get_analysis_requirements db source_id) := by
            simp [analyse_content, h1, h2, h3, h4]
          rw [hA, hB]
          apply processRequirements_proj_congr registry cid translated_text
          · simp [mapLlmIds]
          · simp [mapLlmIds]
          · rw [get_analysis_requirements_eq, get_analysis_requirements_eq]
            have : (mapLlmIds db f).requirements =
                db.requirements.map (fun r => { r with llm_id := f r }) := rfl
            rw [this]
            exact hproj db.requirements source_id
        · constructor <;>
            simp [analyse_content, hct, hsa, h1, h2, h3, h4, hresx]

end OsintAnalyser
